import Mathlib

/-!
Verification of the audio-format normalization core of the repository
(`tts_providers.py`): the format sniffer, the AIFF chunk walker /
sound-data extractor `_convert_aiff_to_wav`, and the WAV wrapping step.

Byte buffers are modelled as `List Nat` (each entry a byte value).  The
definitions below mirror the Python source line by line; Python slices
(which clamp to the available bytes) are modelled by `pySlice`.
-/

/-- The 4 ASCII bytes of `b'FORM'`. -/
def formId : List Nat := [70, 79, 82, 77]

/-- The 4 ASCII bytes of `b'RIFF'`. -/
def riffId : List Nat := [82, 73, 70, 70]

/-- The 4 ASCII bytes of `b'SSND'`. -/
def ssndId : List Nat := [83, 83, 78, 68]

/-- The 4 ASCII bytes of `b'AIFF'`. -/
def aiffId : List Nat := [65, 73, 70, 70]

/-- The 4 ASCII bytes of `b'WAVE'`. -/
def waveId : List Nat := [87, 65, 86, 69]

/-- The 4 ASCII bytes of `b'fmt '`. -/
def fmtId : List Nat := [102, 109, 116, 32]

/-- The 4 ASCII bytes of `b'data'`. -/
def dataId : List Nat := [100, 97, 116, 97]

/-- Python slice `b[a:e]` for nonnegative `a`, `e`: clamps to the available
bytes and is empty when `e ≤ a`. -/
def pySlice (b : List Nat) (a e : Nat) : List Nat := (b.take e).drop a

/-- `struct.unpack('>I', b[off:off+4])[0]`: a 4-byte big-endian unsigned
integer read at `off`.  The Python call requires exactly 4 bytes; every
call site below guarantees that, and the fallback value 0 is never used
there. -/
def readU32BE (b : List Nat) (off : Nat) : Nat :=
  match pySlice b off (off + 4) with
  | [b0, b1, b2, b3] => ((b0 * 256 + b1) * 256 + b2) * 256 + b3
  | _ => 0

/-- The error taxonomy of the normalizer.  Each constructor corresponds to
one `raise` site in the source:
`MalformedContainer` ↦ `raise Exception("Not a valid AIFF file")`,
`MissingSoundChunk` ↦ `raise Exception("No sound data found in AIFF file")`,
`UnsupportedFormat b8` ↦ `raise Exception(f"Unknown audio format: {audio_data[:8]}")`
carrying the first (up to) 8 bytes of the buffer. -/
inductive AudioError where
  | MalformedContainer : AudioError
  | MissingSoundChunk : AudioError
  | UnsupportedFormat : List Nat → AudioError
  deriving Repr, DecidableEq

/-- The body of the chunk-walk loop of `_convert_aiff_to_wav`
(tts_providers.py lines 356-379), driven by a fuel counter so that the
recursion is structural (and hence kernel-computable):

```python
while offset < len(aiff_data) - 8:
    chunk_id = aiff_data[offset:offset+4]
    chunk_size = struct.unpack('>I', aiff_data[offset+4:offset+8])[0]
    if chunk_id == b'SSND':
        audio_start = offset + 16
        audio_end = offset + 8 + chunk_size
        audio_data = aiff_data[audio_start:audio_end]
        ... return <wav-encoded audio_data>
    offset += 8 + chunk_size
raise Exception("No sound data found in AIFF file")
```

Each iteration advances `offset` by at least 8 while the loop guard
requires `offset < length - 8`, so `b.length` iterations always suffice;
`chunkWalkAux_fuel` below proves the fuel is irrelevant once it is at
least `b.length - offset`, and `chunkWalk_eq` recovers the exact
recurrence of the source loop.  (The WAV encoding of the returned slice
is split off into `encodeWav`; see `convertAiffToWav`.) -/
def chunkWalkAux (b : List Nat) : Nat → Nat → Except AudioError (List Nat)
  | 0, _ => .error .MissingSoundChunk
  | fuel + 1, offset =>
    if offset < b.length - 8 then
      if pySlice b offset (offset + 4) = ssndId then
        .ok (pySlice b (offset + 16) (offset + 8 + readU32BE b (offset + 4)))
      else
        chunkWalkAux b fuel (offset + 8 + readU32BE b (offset + 4))
    else
      .error .MissingSoundChunk

/-- The chunk walk of `_convert_aiff_to_wav` starting at a given cursor,
with adequate fuel. -/
def chunkWalk (b : List Nat) (offset : Nat) : Except AudioError (List Nat) :=
  chunkWalkAux b b.length offset

instance {ε α : Type} [DecidableEq ε] [DecidableEq α] :
    DecidableEq (Except ε α) := fun x y =>
  match x, y with
  | .ok a, .ok b =>
      if h : a = b then .isTrue (by rw [h]) else .isFalse (by simp [h])
  | .error a, .error b =>
      if h : a = b then .isTrue (by rw [h]) else .isFalse (by simp [h])
  | .ok _, .error _ => .isFalse (by simp)
  | .error _, .ok _ => .isFalse (by simp)

/-- The extraction part of `_convert_aiff_to_wav` (tts_providers.py
lines 350-379): reject buffers without a `FORM` prefix, then walk the
chunks from offset 12.  `aiff_data.startswith(b'FORM')` is rendered as
`b.take 4 = formId` (equivalent, since `formId` has length 4). -/
def extractSoundData (b : List Nat) : Except AudioError (List Nat) :=
  if b.take 4 = formId then chunkWalk b 12
  else .error .MalformedContainer

/-- 4-byte little-endian encoding of `n % 2^32`. -/
def u32le (n : Nat) : List Nat :=
  [n % 256, n / 256 % 256, n / 65536 % 256, n / 16777216 % 256]

/-- 2-byte little-endian encoding of `n % 2^16`. -/
def u16le (n : Nat) : List Nat := [n % 256, n / 256 % 256]

/-- 4-byte big-endian encoding of `n % 2^32` (used to build test AIFF
buffers, mirroring `struct.pack('>I', n)`). -/
def u32be (n : Nat) : List Nat :=
  [n / 16777216 % 256, n / 65536 % 256, n / 256 % 256, n % 256]

/-- Modelled from the spec: the WAV encoder.  The source wraps the
extracted samples with Python's standard-library `wave` writer
(`wave.open`, `setnchannels(1)`, `setsampwidth(2)`, `setframerate(22050)`,
`writeframes(audio_data)`, tts_providers.py lines 367-375); that writer's
code is not part of this repository.  Following §4.3 of the spec it
produces a minimal canonical 44-byte header — `RIFF` with the total-length
field `36 + len(samples)`, a 16-byte PCM `fmt ` sub-chunk (mono, 22050 Hz,
byte-rate 44100, block-align 2, 16 bits per sample), a `data` sub-chunk
whose length field is `len(samples)` — followed by the samples verbatim. -/
def wavHeader (n : Nat) : List Nat :=
  riffId ++ u32le (36 + n) ++ waveId ++
  fmtId ++ u32le 16 ++ u16le 1 ++ u16le 1 ++ u32le 22050 ++
  u32le 44100 ++ u16le 2 ++ u16le 16 ++
  dataId ++ u32le n

/-- Modelled from the spec: the 44-byte canonical header followed by the
samples verbatim (see `wavHeader`). -/
def encodeWav (samples : List Nat) : List Nat :=
  wavHeader samples.length ++ samples

/-- `_convert_aiff_to_wav` as a whole: extract the sound data, then wrap
it in a WAV container. -/
def convertAiffToWav (b : List Nat) : Except AudioError (List Nat) :=
  (extractSoundData b).map encodeWav

/-- The format tags of the sniffer (§4.1 of the spec). -/
inductive FormatTag where
  | Wav : FormatTag
  | Aiff : FormatTag
  | Unknown : FormatTag
  deriving Repr, DecidableEq

/-- The format sniffer implicit in `_generate_pyttsx3_bytes`
(tts_providers.py lines 296-314): `audio_data.startswith(b'RIFF')` →
WAV, `audio_data.startswith(b'FORM')` → AIFF, otherwise unknown. -/
def classify (b : List Nat) : FormatTag :=
  if b.take 4 = riffId then .Wav
  else if b.take 4 = formId then .Aiff
  else .Unknown

/-- The normalization dispatch of `_generate_pyttsx3_bytes`
(tts_providers.py lines 296-314): a `RIFF` buffer is returned unchanged,
a `FORM` buffer is converted via `_convert_aiff_to_wav`, and anything
else raises `Unknown audio format: {audio_data[:8]}` carrying the first
8 bytes. -/
def normalizeToWav (b : List Nat) : Except AudioError (List Nat) :=
  if b.take 4 = riffId then .ok b
  else if b.take 4 = formId then convertAiffToWav b
  else .error (.UnsupportedFormat (pySlice b 0 8))

/-- Modelled from the spec: a record of what "a standard WAV parser
reports" (§8 of the spec) — channel count, sample rate, sample width in
bytes, and the frame data. -/
structure WavInfo where
  channels : Nat
  sampleRate : Nat
  sampleWidth : Nat
  frames : List Nat
  deriving Repr, DecidableEq

/-- 2-byte little-endian unsigned read at `off`. -/
def readU16LE (b : List Nat) (off : Nat) : Nat :=
  match pySlice b off (off + 2) with
  | [b0, b1] => b0 + 256 * b1
  | _ => 0

/-- 4-byte little-endian unsigned read at `off`. -/
def readU32LE (b : List Nat) (off : Nat) : Nat :=
  match pySlice b off (off + 4) with
  | [b0, b1, b2, b3] => b0 + 256 * (b1 + 256 * (b2 + 256 * b3))
  | _ => 0

/-- Modelled from the spec: a standard WAV parser for canonical-layout
files (RIFF magic, `WAVE` form type, a 16-byte PCM `fmt ` sub-chunk at
offset 12, the `data` sub-chunk at offset 36).  Reports the header fields
and the frame data named by §8 of the spec. -/
def parseWav (b : List Nat) : Option WavInfo :=
  if pySlice b 0 4 = riffId ∧ pySlice b 8 12 = waveId ∧
     pySlice b 12 16 = fmtId ∧ readU32LE b 16 = 16 ∧
     readU16LE b 20 = 1 ∧ pySlice b 36 40 = dataId then
    some ⟨readU16LE b 22, readU32LE b 24, readU16LE b 34 / 8,
          pySlice b 44 (44 + readU32LE b 40)⟩
  else none

/-- The minimal AIFF wrapper of the round-trip property (§8 of the spec):
a 12-byte `FORM` header, one `SSND` chunk header with size
`8 + len(s)`, the 8-byte offset/blocksize sub-header, then `s`. -/
def minimalAiffHeader (n : Nat) : List Nat :=
  formId ++ u32be (20 + n) ++ aiffId ++
  ssndId ++ u32be (8 + n) ++ [0, 0, 0, 0, 0, 0, 0, 0]

/-- `wrap_as_minimal_aiff(s)` from §8 of the spec. -/
def wrapAsMinimalAiff (s : List Nat) : List Nat :=
  minimalAiffHeader s.length ++ s

/-- A 42-byte AIFF buffer whose `COMM` chunk (size 2) precedes the
`SSND` chunk holding the payload `[1, 2, 3, 4]`. -/
def commThenSsndBuf : List Nat :=
  formId ++ u32be 34 ++ aiffId ++
  [67, 79, 77, 77] ++ u32be 2 ++ [9, 9] ++
  ssndId ++ u32be 12 ++ [0, 0, 0, 0, 0, 0, 0, 0] ++ [1, 2, 3, 4]

/-- A 32-byte AIFF buffer whose last (`SSND`) chunk header declares size
100, far past the end of the buffer: only 12 bytes follow the chunk
header. -/
def truncSsndBuf : List Nat :=
  formId ++ u32be 24 ++ aiffId ++
  ssndId ++ u32be 100 ++ [0, 0, 0, 0, 0, 0, 0, 0] ++ [1, 2, 3, 4]

/-- A 24-byte AIFF buffer with a single `COMM` chunk and no `SSND`
chunk anywhere. -/
def formNoSsndBuf : List Nat :=
  formId ++ u32be 16 ++ aiffId ++
  [67, 79, 77, 77] ++ u32be 4 ++ [1, 2, 3, 4]

/-- A 24-byte AIFF buffer whose last (`COMM`) chunk header declares size
100, past the end of the buffer. -/
def oversizeCommBuf : List Nat :=
  formId ++ u32be 16 ++ aiffId ++
  [67, 79, 77, 77] ++ u32be 100 ++ [1, 2, 3, 4]

/-- The literal concrete input of §8 of the spec: a 12-byte `FORM`
header, then an 8-byte `SSND` sub-header (offset=0, blocksize=0), then
the 4 PCM bytes — with no `SSND` chunk id/size fields in between
(24 bytes in total). -/
def c6LiteralBuf : List Nat :=
  formId ++ u32be 16 ++ aiffId ++
  [0, 0, 0, 0, 0, 0, 0, 0] ++ [1, 2, 3, 4]

/-- The alternative literal reading of the same scenario: the 8 bytes
after the `FORM` header are the `SSND` chunk id plus a 4-byte size
field, then the 4 PCM bytes (24 bytes in total). -/
def c6AltBuf : List Nat :=
  formId ++ u32be 16 ++ aiffId ++
  ssndId ++ u32be 0 ++ [1, 2, 3, 4]

/-- The §8 scenario repaired: the 8-byte `SSND` chunk header (id plus
big-endian size 12) inserted between the `FORM` header and the
offset/blocksize sub-header (32 bytes in total). -/
def c6FixedBuf : List Nat :=
  formId ++ u32be 24 ++ aiffId ++
  ssndId ++ u32be 12 ++ [0, 0, 0, 0, 0, 0, 0, 0] ++ [1, 2, 3, 4]

/-! ## Basic lemmas about the embedding -/

/-- The fuel of `chunkWalkAux` is irrelevant once it is at least
`b.length - offset`: with that much fuel the loop always reaches its
real exit condition. -/
theorem chunkWalkAux_fuel (b : List Nat) :
    ∀ f g offset, b.length - offset ≤ f → b.length - offset ≤ g →
      chunkWalkAux b f offset = chunkWalkAux b g offset := by
  intro f
  induction f with
  | zero =>
    intro g offset hf hg
    have hguard : ¬ offset < b.length - 8 := by omega
    cases g with
    | zero => rfl
    | succ g => simp [chunkWalkAux, hguard]
  | succ f ih =>
    intro g offset hf hg
    cases g with
    | zero =>
      have hguard : ¬ offset < b.length - 8 := by omega
      simp [chunkWalkAux, hguard]
    | succ g =>
      by_cases hguard : offset < b.length - 8
      · by_cases hid : pySlice b offset (offset + 4) = ssndId
        · simp [chunkWalkAux, hguard, hid]
        · simp only [chunkWalkAux, if_pos hguard, if_neg hid]
          exact ih g _ (by omega) (by omega)
      · simp [chunkWalkAux, hguard]

/-- `chunkWalk` satisfies exactly the recurrence of the source loop:
while the cursor is below `length - 8`, read the 4-byte id and the
4-byte big-endian size; on `SSND` return `aiff_data[offset+16 :
offset+8+size]`, otherwise advance the cursor by `8 + size`; when the
guard fails, `MissingSoundChunk`. -/
theorem chunkWalk_eq (b : List Nat) (offset : Nat) :
    chunkWalk b offset =
      if offset < b.length - 8 then
        if pySlice b offset (offset + 4) = ssndId then
          .ok (pySlice b (offset + 16) (offset + 8 + readU32BE b (offset + 4)))
        else
          chunkWalk b (offset + 8 + readU32BE b (offset + 4))
      else
        .error .MissingSoundChunk := by
  unfold chunkWalk
  by_cases hguard : offset < b.length - 8
  · have hn : b.length = (b.length - 1) + 1 := by omega
    conv_lhs => rw [hn]
    rw [chunkWalkAux, if_pos hguard, if_pos hguard]
    by_cases hid : pySlice b offset (offset + 4) = ssndId
    · rw [if_pos hid, if_pos hid]
    · rw [if_neg hid, if_neg hid]
      exact chunkWalkAux_fuel b (b.length - 1) b.length _ (by omega) (by omega)
  · rw [if_neg hguard]
    rcases Nat.eq_zero_or_pos b.length with h0 | hp
    · conv_lhs => rw [h0]
      rfl
    · have hn : b.length = (b.length - 1) + 1 := by omega
      conv_lhs => rw [hn]
      rw [chunkWalkAux, if_neg hguard]

/-- Python slicing past a prefix: `(xs ++ ys)[a:e] = ys[a-|xs|:e-|xs|]`
whenever the slice starts at or after the end of `xs`. -/
theorem pySlice_append_right (xs ys : List Nat) (a e : Nat)
    (h : xs.length ≤ a) :
    pySlice (xs ++ ys) a e = pySlice ys (a - xs.length) (e - xs.length) := by
  unfold pySlice
  rw [List.take_append_eq_append_take, List.drop_append_eq_append_drop]
  rw [List.drop_eq_nil_of_le (by simp; omega), List.nil_append,
      List.length_take]
  rcases Nat.le_total xs.length e with h1 | h1
  · rw [Nat.min_eq_right h1]
  · have h2 : e - xs.length = 0 := by omega
    simp [h2, Nat.min_eq_left h1]

/-- Python slicing inside a prefix: `(xs ++ ys)[a:e] = xs[a:e]` whenever
the slice ends at or before the end of `xs`. -/
theorem pySlice_append_left (xs ys : List Nat) (a e : Nat)
    (h : e ≤ xs.length) :
    pySlice (xs ++ ys) a e = pySlice xs a e := by
  unfold pySlice
  rw [List.take_append_of_le_length h]

/-- Length of a Python slice: `min e |b| - a` (truncated subtraction). -/
theorem pySlice_length (b : List Nat) (a e : Nat) :
    (pySlice b a e).length = min e b.length - a := by
  simp [pySlice]

/-- A 4-byte big-endian read past a prefix. -/
theorem readU32BE_append (xs ys : List Nat) (off : Nat)
    (h : xs.length ≤ off) :
    readU32BE (xs ++ ys) off = readU32BE ys (off - xs.length) := by
  unfold readU32BE
  rw [pySlice_append_right xs ys off (off + 4) h]
  have h4 : off + 4 - xs.length = off - xs.length + 4 := by omega
  rw [h4]

/-- `readU32BE` undoes `u32be` on values below `2^32`. -/
theorem readU32BE_u32be (n : Nat) (rest : List Nat)
    (h : n < 4294967296) :
    readU32BE (u32be n ++ rest) 0 = n := by
  have hs : pySlice (u32be n ++ rest) 0 4 = u32be n := rfl
  unfold readU32BE
  rw [hs]
  unfold u32be
  simp only []
  omega

/-- A buffer shorter than 4 bytes matches neither magic. -/
theorem take4_ne_of_short (b : List Nat) (h : b.length < 4) :
    b.take 4 ≠ riffId ∧ b.take 4 ≠ formId := by
  constructor <;> intro he <;>
    (have hl := congrArg List.length he; simp [riffId, formId] at hl; omega)

theorem classify_eq_wav_iff (b : List Nat) :
    classify b = .Wav ↔ b.take 4 = riffId := by
  unfold classify
  by_cases hr : b.take 4 = riffId
  · rw [if_pos hr]
    exact ⟨fun _ => hr, fun _ => rfl⟩
  · rw [if_neg hr]
    by_cases hf : b.take 4 = formId
    · rw [if_pos hf]
      exact ⟨fun h => absurd h (by decide), fun hw => absurd hw hr⟩
    · rw [if_neg hf]
      exact ⟨fun h => absurd h (by decide), fun hw => absurd hw hr⟩

theorem classify_eq_aiff_iff (b : List Nat) :
    classify b = .Aiff ↔ b.take 4 = formId := by
  unfold classify
  by_cases hr : b.take 4 = riffId
  · rw [if_pos hr]
    constructor
    · intro h
      exact absurd h (by decide)
    · intro hf
      exact absurd (hr.symm.trans hf) (by decide)
  · rw [if_neg hr]
    by_cases hf : b.take 4 = formId
    · rw [if_pos hf]
      exact ⟨fun _ => hf, fun _ => rfl⟩
    · rw [if_neg hf]
      exact ⟨fun h => absurd h (by decide), fun hw => absurd hw hf⟩

theorem classify_eq_unknown_iff (b : List Nat) :
    classify b = .Unknown ↔ b.take 4 ≠ riffId ∧ b.take 4 ≠ formId := by
  unfold classify
  by_cases hr : b.take 4 = riffId
  · rw [if_pos hr]
    exact ⟨fun h => absurd h (by decide), fun ⟨h1, _⟩ => absurd hr h1⟩
  · rw [if_neg hr]
    by_cases hf : b.take 4 = formId
    · rw [if_pos hf]
      exact ⟨fun h => absurd h (by decide), fun ⟨_, h2⟩ => absurd hf h2⟩
    · rw [if_neg hf]
      exact ⟨fun _ => ⟨hr, hf⟩, fun _ => rfl⟩

/-- If no 4-byte window of the buffer reads `SSND`, the walk can only
end in `MissingSoundChunk`, whatever the fuel and the cursor. -/
theorem chunkWalkAux_no_ssnd (b : List Nat)
    (hno : ∀ c < b.length, pySlice b c (c + 4) ≠ ssndId) :
    ∀ fuel offset, chunkWalkAux b fuel offset = .error .MissingSoundChunk := by
  intro fuel
  induction fuel with
  | zero => intro offset; rfl
  | succ f ih =>
    intro offset
    by_cases hguard : offset < b.length - 8
    · have hid : pySlice b offset (offset + 4) ≠ ssndId :=
        hno offset (by omega)
      simp [chunkWalkAux, hguard, hid, ih]
    · simp [chunkWalkAux, hguard]

/-- The canonical header built by `wavHeader` is 44 bytes long. -/
theorem wavHeader_length (n : Nat) : (wavHeader n).length = 44 := by
  simp [wavHeader, riffId, waveId, fmtId, dataId, u32le, u16le]

/-! ## The claims -/

/-- C9: the format sniffer is a pure function of the buffer bytes: `Wav`
exactly when the first 4 bytes are `RIFF`, `Aiff` exactly when they are
`FORM`, and `Unknown` otherwise; in particular every buffer shorter than
4 bytes is `Unknown`. -/
theorem classify_spec (b : List Nat) :
    (classify b = .Wav ↔ b.take 4 = riffId) ∧
    (classify b = .Aiff ↔ b.take 4 = formId) ∧
    (b.length < 4 → classify b = .Unknown) :=
  ⟨classify_eq_wav_iff b, classify_eq_aiff_iff b,
   fun hl => (classify_eq_unknown_iff b).mpr (take4_ne_of_short b hl)⟩

theorem classify_spec_witness :
    classify [82, 73, 70, 70, 9] = .Wav ∧
    classify [70, 79, 82, 77, 9] = .Aiff ∧
    classify [70, 79] = .Unknown :=
  ⟨(classify_spec [82, 73, 70, 70, 9]).1.mpr (by decide),
   (classify_spec [70, 79, 82, 77, 9]).2.1.mpr (by decide),
   (classify_spec [70, 79]).2.2 (by decide)⟩

/-- C4: every buffer the sniffer classifies as `Wav` (first four bytes
`RIFF`) is returned unchanged by the normalizer — no re-encoding, no
validation. -/
theorem normalize_wav_identity (b : List Nat) (h : classify b = .Wav) :
    normalizeToWav b = .ok b := by
  have hr : b.take 4 = riffId := (classify_eq_wav_iff b).mp h
  unfold normalizeToWav
  rw [if_pos hr]

theorem normalize_wav_identity_witness :
    normalizeToWav [82, 73, 70, 70, 7, 7] = .ok [82, 73, 70, 70, 7, 7] :=
  normalize_wav_identity [82, 73, 70, 70, 7, 7] (by decide)

/-- C8: every buffer the sniffer classifies as `Unknown` makes the
normalizer fail with `UnsupportedFormat`, carrying the first 8 bytes of
the buffer. -/
theorem normalize_unknown_unsupported (b : List Nat)
    (h : classify b = .Unknown) :
    normalizeToWav b = .error (.UnsupportedFormat (b.take 8)) := by
  obtain ⟨hr, hf⟩ := (classify_eq_unknown_iff b).mp h
  unfold normalizeToWav
  rw [if_neg hr, if_neg hf]
  simp [pySlice]

theorem normalize_unknown_unsupported_witness :
    normalizeToWav [1, 2, 3, 4, 5, 6, 7, 8, 9] =
      .error (.UnsupportedFormat [1, 2, 3, 4, 5, 6, 7, 8]) :=
  normalize_unknown_unsupported [1, 2, 3, 4, 5, 6, 7, 8, 9] (by decide)

/-- C1: for every AIFF buffer (`FORM` prefix) the extractor starts the
cursor at byte 12 and walks chunks by reading a 4-byte id and a 4-byte
big-endian size: on `SSND` it returns the slice starting 8 bytes into
the chunk data and running for `size - 8` bytes (whenever the chunk lies
within the buffer), and otherwise advances by exactly `8 + size` bytes
with no even-length padding, so that a `COMM` chunk preceding the `SSND`
chunk is skipped and the correct payload returned. -/
theorem extract_chunk_walk_spec :
    (∀ b : List Nat, b.take 4 = formId → extractSoundData b = chunkWalk b 12) ∧
    (∀ (b : List Nat) (off : Nat), off < b.length - 8 →
        pySlice b off (off + 4) = ssndId →
        chunkWalk b off =
          .ok (pySlice b (off + 16) (off + 8 + readU32BE b (off + 4)))) ∧
    (∀ (b : List Nat) (off : Nat), off < b.length - 8 →
        pySlice b off (off + 4) ≠ ssndId →
        chunkWalk b off = chunkWalk b (off + 8 + readU32BE b (off + 4))) ∧
    (∀ (b : List Nat) (off : Nat), off < b.length - 8 →
        8 ≤ readU32BE b (off + 4) →
        off + 8 + readU32BE b (off + 4) ≤ b.length →
        (pySlice b (off + 16) (off + 8 + readU32BE b (off + 4))).length =
          readU32BE b (off + 4) - 8) ∧
    extractSoundData commThenSsndBuf = .ok [1, 2, 3, 4] := by
  refine ⟨?_, ?_, ?_, ?_, by decide⟩
  · intro b h
    unfold extractSoundData
    rw [if_pos h]
  · intro b off h1 h2
    rw [chunkWalk_eq, if_pos h1, if_pos h2]
  · intro b off h1 h2
    conv_lhs => rw [chunkWalk_eq]
    rw [if_pos h1, if_neg h2]
  · intro b off h1 h2 h3
    rw [pySlice_length]
    omega

theorem extract_chunk_walk_spec_witness :
    extractSoundData (wrapAsMinimalAiff [1, 2, 3, 4]) =
      chunkWalk (wrapAsMinimalAiff [1, 2, 3, 4]) 12 ∧
    chunkWalk (wrapAsMinimalAiff [1, 2, 3, 4]) 12 =
      .ok (pySlice (wrapAsMinimalAiff [1, 2, 3, 4]) 28
            (12 + 8 + readU32BE (wrapAsMinimalAiff [1, 2, 3, 4]) 16)) ∧
    chunkWalk commThenSsndBuf 12 =
      chunkWalk commThenSsndBuf (12 + 8 + readU32BE commThenSsndBuf 16) ∧
    (pySlice (wrapAsMinimalAiff [1, 2, 3, 4]) 28
        (12 + 8 + readU32BE (wrapAsMinimalAiff [1, 2, 3, 4]) 16)).length =
      readU32BE (wrapAsMinimalAiff [1, 2, 3, 4]) 16 - 8 :=
  ⟨extract_chunk_walk_spec.1 (wrapAsMinimalAiff [1, 2, 3, 4]) (by decide),
   extract_chunk_walk_spec.2.1 (wrapAsMinimalAiff [1, 2, 3, 4]) 12
     (by decide) (by decide),
   extract_chunk_walk_spec.2.2.1 commThenSsndBuf 12 (by decide) (by decide),
   extract_chunk_walk_spec.2.2.2.1 (wrapAsMinimalAiff [1, 2, 3, 4]) 12
     (by decide) (by decide) (by decide)⟩

/-- C7: the extractor fails with `MalformedContainer` on every buffer
without a `FORM` prefix; the walk loop ends exactly when the cursor
reaches or exceeds `length - 8`, and a well-formed AIFF buffer in which
no 4-byte window reads `SSND` ends in `MissingSoundChunk`. -/
theorem extract_error_spec :
    (∀ b : List Nat, b.take 4 ≠ formId →
        extractSoundData b = .error .MalformedContainer) ∧
    (∀ (b : List Nat) (off : Nat), b.length - 8 ≤ off →
        chunkWalk b off = .error .MissingSoundChunk) ∧
    (∀ b : List Nat, b.take 4 = formId →
        (∀ c < b.length, pySlice b c (c + 4) ≠ ssndId) →
        extractSoundData b = .error .MissingSoundChunk) := by
  refine ⟨?_, ?_, ?_⟩
  · intro b h
    unfold extractSoundData
    rw [if_neg h]
  · intro b off h
    rw [chunkWalk_eq, if_neg (by omega)]
  · intro b hform hno
    unfold extractSoundData
    rw [if_pos hform]
    exact chunkWalkAux_no_ssnd b hno b.length 12

theorem extract_error_spec_witness :
    extractSoundData [1, 2, 3, 4, 5] = .error .MalformedContainer ∧
    chunkWalk formNoSsndBuf 24 = .error .MissingSoundChunk ∧
    extractSoundData formNoSsndBuf = .error .MissingSoundChunk :=
  ⟨extract_error_spec.1 [1, 2, 3, 4, 5] (by decide),
   extract_error_spec.2.1 formNoSsndBuf 24 (by decide),
   extract_error_spec.2.2 formNoSsndBuf (by decide) (by decide)⟩

/-- C10 (implicit): the `SSND` branch is total — whatever size the
`SSND` chunk header declares, the extractor succeeds and returns the
Python slice `aiff_data[offset+16 : offset+8+size]`, whose length is
clamped to the available bytes and never exceeds `size - 8` (so it may
be empty or shorter than `size - 8`); no out-of-bounds read occurs. -/
theorem ssnd_branch_total (b : List Nat) (off : Nat)
    (h1 : off < b.length - 8) (h2 : pySlice b off (off + 4) = ssndId) :
    chunkWalk b off =
      .ok (pySlice b (off + 16) (off + 8 + readU32BE b (off + 4))) ∧
    (pySlice b (off + 16) (off + 8 + readU32BE b (off + 4))).length =
      min (off + 8 + readU32BE b (off + 4)) b.length - (off + 16) ∧
    (pySlice b (off + 16) (off + 8 + readU32BE b (off + 4))).length ≤
      readU32BE b (off + 4) - 8 := by
  refine ⟨?_, pySlice_length b (off + 16) (off + 8 + readU32BE b (off + 4)), ?_⟩
  · rw [chunkWalk_eq, if_pos h1, if_pos h2]
  · rw [pySlice_length]
    omega

theorem ssnd_branch_total_witness :
    chunkWalk truncSsndBuf 12 =
      .ok (pySlice truncSsndBuf 28 (12 + 8 + readU32BE truncSsndBuf 16)) ∧
    (pySlice truncSsndBuf 28 (12 + 8 + readU32BE truncSsndBuf 16)).length =
      min (12 + 8 + readU32BE truncSsndBuf 16) truncSsndBuf.length - 28 ∧
    (pySlice truncSsndBuf 28 (12 + 8 + readU32BE truncSsndBuf 16)).length ≤
      readU32BE truncSsndBuf 16 - 8 :=
  ssnd_branch_total truncSsndBuf 12 (by decide) (by decide)

/-- C2 counterexample: `truncSsndBuf` is a 32-byte AIFF buffer whose
last chunk header (an `SSND` chunk at cursor 12) declares size 100,
running far past the end of the buffer — yet the extractor does not
fail: it returns the partial 4-byte payload. -/
theorem truncated_ssnd_returns_partial :
    readU32BE truncSsndBuf 16 = 100 ∧
    truncSsndBuf.length = 32 ∧
    extractSoundData truncSsndBuf = .ok [1, 2, 3, 4] := by decide

/-- C2 amended: no truncation error exists in the extractor.  When a
chunk header declares a size running past the end of the buffer, an
`SSND` chunk yields the payload clamped to the available bytes
(`length - (offset + 16)` bytes), and a non-`SSND` chunk makes the
cursor jump past `length - 8`, ending the walk with
`MissingSoundChunk`. -/
theorem oversized_chunk_behavior :
    (∀ (b : List Nat) (off : Nat), off < b.length - 8 →
        pySlice b off (off + 4) = ssndId →
        b.length ≤ off + 8 + readU32BE b (off + 4) →
        chunkWalk b off =
          .ok (pySlice b (off + 16) (off + 8 + readU32BE b (off + 4))) ∧
        (pySlice b (off + 16) (off + 8 + readU32BE b (off + 4))).length =
          b.length - (off + 16)) ∧
    (∀ (b : List Nat) (off : Nat), off < b.length - 8 →
        pySlice b off (off + 4) ≠ ssndId →
        b.length - 8 ≤ off + 8 + readU32BE b (off + 4) →
        chunkWalk b off = .error .MissingSoundChunk) := by
  constructor
  · intro b off h1 h2 h3
    constructor
    · rw [chunkWalk_eq, if_pos h1, if_pos h2]
    · rw [pySlice_length]
      omega
  · intro b off h1 h2 h3
    conv_lhs => rw [chunkWalk_eq]
    rw [if_pos h1, if_neg h2]
    rw [chunkWalk_eq, if_neg (by omega)]

theorem oversized_chunk_behavior_witness :
    (chunkWalk truncSsndBuf 12 =
        .ok (pySlice truncSsndBuf 28 (12 + 8 + readU32BE truncSsndBuf 16)) ∧
      (pySlice truncSsndBuf 28 (12 + 8 + readU32BE truncSsndBuf 16)).length =
        truncSsndBuf.length - 28) ∧
    chunkWalk oversizeCommBuf 12 = .error .MissingSoundChunk :=
  ⟨oversized_chunk_behavior.1 truncSsndBuf 12 (by decide) (by decide)
     (by decide),
   oversized_chunk_behavior.2 oversizeCommBuf 12 (by decide) (by decide)
     (by decide)⟩

/-- C6 counterexample: on the literal 24-byte input of the scenario —
12-byte `FORM` header, 8-byte offset/blocksize sub-header, 4 PCM bytes,
with no `SSND` chunk id and size field — the extractor fails with
`MissingSoundChunk` instead of returning the 4 bytes; under the
alternative literal reading (the 8 bytes being the `SSND` id plus a size
field) it returns the empty slice, not the 4 bytes. -/
theorem c6_literal_input_fails :
    extractSoundData c6LiteralBuf = .error .MissingSoundChunk ∧
    extractSoundData c6AltBuf = .ok [] := by decide

/-- C6 amended: with the 8-byte `SSND` chunk header (id `SSND`,
big-endian size 12) inserted between the 12-byte `FORM` header and the
8-byte offset/blocksize sub-header, the extractor returns exactly the 4
PCM bytes `[0x01, 0x02, 0x03, 0x04]`. -/
theorem c6_with_chunk_header_extracts :
    extractSoundData c6FixedBuf = .ok [1, 2, 3, 4] := by decide

/-- C3: round-trip — extracting the sound data from the minimal
well-formed AIFF wrapper of any raw sample byte string `s` (one `SSND`
chunk of declared size `8 + len(s)`) returns exactly `s`, provided the
size field fits in 32 bits. -/
theorem extract_wrap_roundtrip (s : List Nat)
    (h : s.length + 8 < 4294967296) :
    extractSoundData (wrapAsMinimalAiff s) = .ok s := by
  have hh : (minimalAiffHeader s.length).length = 28 := by
    simp [minimalAiffHeader, formId, aiffId, ssndId, u32be]
  have hlen : (wrapAsMinimalAiff s).length = 28 + s.length := by
    simp [wrapAsMinimalAiff, hh]
  have hpre : (wrapAsMinimalAiff s).take 4 = formId := rfl
  have hid : pySlice (wrapAsMinimalAiff s) 12 (12 + 4) = ssndId := rfl
  have hsz : readU32BE (wrapAsMinimalAiff s) (12 + 4) = 8 + s.length := by
    have h0 : readU32BE (wrapAsMinimalAiff s) (12 + 4) =
        (((8 + s.length) / 16777216 % 256 * 256 +
          (8 + s.length) / 65536 % 256) * 256 +
          (8 + s.length) / 256 % 256) * 256 + (8 + s.length) % 256 := rfl
    omega
  unfold extractSoundData
  rw [if_pos hpre, chunkWalk_eq, if_pos (by rw [hlen]; omega), if_pos hid,
      hsz]
  have hfinal : pySlice (wrapAsMinimalAiff s) (12 + 16)
      (12 + 8 + (8 + s.length)) = s := by
    unfold wrapAsMinimalAiff
    rw [pySlice_append_right _ _ _ _ (le_of_eq hh), hh]
    rw [show 12 + 16 - 28 = 0 by norm_num,
        show 12 + 8 + (8 + s.length) - 28 = s.length by omega]
    simp [pySlice]
  rw [hfinal]

theorem extract_wrap_roundtrip_witness :
    extractSoundData (wrapAsMinimalAiff [5, 6, 7]) = .ok [5, 6, 7] :=
  extract_wrap_roundtrip [5, 6, 7] (by decide)

set_option maxHeartbeats 1600000 in
/-- C5: the WAV encoder output, read back by a standard WAV parser,
reports channels=1, sample rate 22050, sample width 2 bytes, and frame
data equal to the input samples verbatim; in particular encoding the 4
bytes `[1, 2, 3, 4]` yields a 48-byte file (44-byte header + 4 data
bytes) whose `data` chunk size field equals 4. -/
theorem encode_wav_spec (s : List Nat) (h : s.length < 4294967296) :
    parseWav (encodeWav s) = some ⟨1, 22050, 2, s⟩ ∧
    (encodeWav s).length = 44 + s.length ∧
    (encodeWav [1, 2, 3, 4]).length = 48 ∧
    readU32LE (encodeWav [1, 2, 3, 4]) 40 = 4 := by
  refine ⟨?_, ?_, by decide, by decide⟩
  · have h40 : readU32LE (encodeWav s) 40 = s.length := by
      have h0 : readU32LE (encodeWav s) 40 =
          s.length % 256 + 256 * (s.length / 256 % 256 +
            256 * (s.length / 65536 % 256 +
              256 * (s.length / 16777216 % 256))) := rfl
      omega
    have hfr : pySlice (encodeWav s) 44 (44 + readU32LE (encodeWav s) 40)
        = s := by
      rw [h40]
      show pySlice (wavHeader s.length ++ s) 44 (44 + s.length) = s
      rw [pySlice_append_right _ _ _ _ (le_of_eq (wavHeader_length s.length)),
          wavHeader_length]
      rw [show 44 - 44 = 0 by norm_num,
          show 44 + s.length - 44 = s.length by omega]
      simp [pySlice]
    have hch : readU16LE (encodeWav s) 22 = 1 := rfl
    have hsr : readU32LE (encodeWav s) 24 = 22050 := rfl
    have hsw : readU16LE (encodeWav s) 34 = 16 := rfl
    unfold parseWav
    rw [if_pos ⟨rfl, rfl, rfl, rfl, rfl, rfl⟩]
    rw [hfr, hch, hsr, hsw]
  · show (wavHeader s.length ++ s).length = 44 + s.length
    rw [List.length_append, wavHeader_length]

theorem encode_wav_spec_witness :
    parseWav (encodeWav [1, 2, 3, 4]) = some ⟨1, 22050, 2, [1, 2, 3, 4]⟩ ∧
    (encodeWav [1, 2, 3, 4]).length = 44 + 4 :=
  ⟨(encode_wav_spec [1, 2, 3, 4] (by decide)).1,
   (encode_wav_spec [1, 2, 3, 4] (by decide)).2.1⟩
